import Mathlib

/- Shallow embedding of src/atm_machine.c (ATM withdrawal system).

   Modelling conventions:
   - C `int` and `long` values are modelled as `Int`; C `/` and `%` on `int`
     are truncating division, modelled by `Int.tdiv` and `Int.tmod`.
   - C `double` amounts and balances are modelled as rationals (`ℚ`); the
     cast `(int)x` is truncation toward zero (`ctrunc`).
   - `calculateDenominations` writes through an out-parameter `*possible`
     that its caller `withdrawCash` (line 436) leaves uninitialized; the
     parameter `possible0` models whatever value that memory happens to
     hold on entry.  All results about the solver are proved for both
     values of `possible0` unless stated otherwise. -/

/-- The ATM note inventory (struct ATM, src/atm_machine.c lines 33-38). -/
structure ATM where
  note2000 : Int
  note500 : Int
  note200 : Int
  note100 : Int
deriving DecidableEq

/-- The four out-parameters n2000/n500/n200/n100 of calculateDenominations
    (line 346): the dispensing plan. -/
structure Den where
  n2000 : Int
  n500 : Int
  n200 : Int
  n100 : Int
deriving DecidableEq

/-- `use = remaining / d; if (use > note) use = note;` (lines 350-351, 356-357,
    362-363, 368-369). -/
def capAt (use note : Int) : Int := if use > note then note else use

/-- Count of 2000-notes chosen by the greedy pass (lines 350-352). -/
def g2000 (amount : Int) (atm : ATM) : Int := capAt (amount.tdiv 2000) atm.note2000

/-- `remaining` after the 2000-level of the greedy pass (line 353). -/
def rem1 (amount : Int) (atm : ATM) : Int := amount - g2000 amount atm * 2000

/-- Count of 500-notes chosen by the greedy pass (lines 356-358). -/
def g500 (amount : Int) (atm : ATM) : Int := capAt ((rem1 amount atm).tdiv 500) atm.note500

/-- `remaining` after the 500-level of the greedy pass (line 359). -/
def rem2 (amount : Int) (atm : ATM) : Int := rem1 amount atm - g500 amount atm * 500

/-- Count of 200-notes chosen by the greedy pass (lines 362-364). -/
def g200 (amount : Int) (atm : ATM) : Int := capAt ((rem2 amount atm).tdiv 200) atm.note200

/-- `remaining` after the 200-level of the greedy pass (line 365). -/
def rem3 (amount : Int) (atm : ATM) : Int := rem2 amount atm - g200 amount atm * 200

/-- Count of 100-notes chosen by the greedy pass (lines 368-370). -/
def g100 (amount : Int) (atm : ATM) : Int := capAt ((rem3 amount atm).tdiv 100) atm.note100

/-- `remaining` after the full greedy pass (line 371). -/
def rem4 (amount : Int) (atm : ATM) : Int := rem3 amount atm - g100 amount atm * 100

/-- The greedy plan (lines 348-371): the values of the out-parameters after
    the descending greedy pass over 2000, 500, 200, 100. -/
def greedyPlan (amount : Int) (atm : ATM) : Den :=
  ⟨g2000 amount atm, g500 amount atm, g200 amount atm, g100 amount atm⟩

/-- `for (r = backup; r >= 0; --r)`: the values taken by a backtracking loop
    counter, in iteration order backup, backup-1, ..., 0 (no iterations when
    the start value is negative). -/
def downTo0 (g : Int) : List Int :=
  if g < 0 then [] else (List.range (g.toNat + 1)).map fun i : Nat => g - (i : Int)

/-- Body of the innermost backtracking loop (lines 388-400): the plan accepted
    for candidate counts (r2000, r500, r200), if any. -/
def tryCombo (amount : Int) (atm : ATM) (r2000 r500 r200 : Int) : Option Den :=
  let rem := amount - (r2000 * 2000 + r500 * 500 + r200 * 200)
  if rem < 0 then none
  else if rem.tmod 100 ≠ 0 then none
  else if rem.tdiv 100 ≤ atm.note100 then some ⟨r2000, r500, r200, rem.tdiv 100⟩
  else none

/-- The three nested backtracking loops (lines 385-403): the first accepted
    combination in descending iteration order, starting from the greedy
    counts. -/
def backtrack (amount : Int) (atm : ATM) (g : Den) : Option Den :=
  (downTo0 g.n2000).findSome? fun r2000 =>
    (downTo0 g.n500).findSome? fun r500 =>
      (downTo0 g.n200).findSome? fun r200 =>
        tryCombo amount atm r2000 r500 r200

/-- calculateDenominations (lines 346-411).  After the greedy pass: if the
    remainder is zero, `*possible = 1` and the greedy plan is returned (lines
    373-376).  Otherwise the loop guards (lines 385-387) test `!(*possible)`,
    which still holds the uninitialized caller value `possible0`: if that
    value is nonzero the loops run zero iterations; inside the loops
    `*possible` is written only together with an immediate return (lines
    394-399).  If the search does not return, the greedy figures are restored
    and `*possible = 0` (lines 406-410). -/
def calculateDenominations (amount : Int) (atm : ATM) (possible0 : Bool) : Den × Bool :=
  if rem4 amount atm = 0 then (greedyPlan amount atm, true)
  else if possible0 then (greedyPlan amount atm, false)
  else
    match backtrack amount atm (greedyPlan amount atm) with
    | some d => (d, true)
    | none => (greedyPlan amount atm, false)

/-- Whether a call to calculateDenominations reads `*possible` before any
    assignment to it in that call.  The only assignment before the loops is at
    line 374, on the path where the greedy remainder is zero; on every other
    path the first access to `*possible` is the read in the outer loop guard
    (line 385), which is evaluated whenever `r2000 >= 0` holds for the greedy
    2000-count (the `&&` short-circuits otherwise). -/
def readsUninitPossible (amount : Int) (atm : ATM) : Bool :=
  decide (rem4 amount atm ≠ 0 ∧ 0 ≤ g2000 amount atm)

/- ----- Reference solver, following the words of the spec (section 4.2) ----- -/

/-- Modelled from the spec (section 4.2, step 3): candidate counts for one
    denomination, iterated from the greedy count down to 0. -/
def specDescending (g : Int) : List Int :=
  (List.range (g.toNat + 1)).reverse.map fun n : Nat => (n : Int)

/-- Modelled from the spec (section 4.2, step 1): greedily take
    floor(remaining/denomination) notes, capped at the available count. -/
def specTake (remaining d note : Int) : Int := min (remaining / d) note

/-- Modelled from the spec (section 4.2, step 3): bounded backtracking over
    the top three denominations, iterating each count from its greedy value
    down to 0, nested in that order, accepting the first combination whose
    residual is non-negative, evenly divisible by 100, and satisfiable by the
    available 100-notes. -/
def specSearch (amount : Int) (atm : ATM) (c2000 c500 c200 : Int) : Option Den :=
  (specDescending c2000).findSome? fun k2000 =>
    (specDescending c500).findSome? fun k500 =>
      (specDescending c200).findSome? fun k200 =>
        let residual := amount - (2000 * k2000 + 500 * k500 + 200 * k200)
        if 0 ≤ residual ∧ residual % 100 = 0 ∧ residual / 100 ≤ atm.note100 then
          some ⟨k2000, k500, k200, residual / 100⟩
        else none

/-- Reference solver written from the spec text of section 4.2, to be compared
    with `calculateDenominations`: (1) greedy pass in descending order 2000,
    500, 200, 100; (2) if the remainder is zero, return the greedy plan;
    (3) otherwise the bounded backtracking of `specSearch`; (4) otherwise
    Infeasible, reporting the original greedy figures. -/
def solveSpec (amount : Int) (atm : ATM) : Den × Bool :=
  let c2000 := specTake amount 2000 atm.note2000
  let r1 := amount - 2000 * c2000
  let c500 := specTake r1 500 atm.note500
  let r2 := r1 - 500 * c500
  let c200 := specTake r2 200 atm.note200
  let r3 := r2 - 200 * c200
  let c100 := specTake r3 100 atm.note100
  let r4 := r3 - 100 * c100
  let gPlan : Den := ⟨c2000, c500, c200, c100⟩
  if r4 = 0 then (gPlan, true)
  else
    match specSearch amount atm c2000 c500 c200 with
    | some d => (d, true)
    | none => (gPlan, false)

/- ----- withdrawCash and the administrative operations ----- -/

/-- The C cast `(int)x` on a double: truncation toward zero. -/
def ctrunc (q : ℚ) : Int := if q < 0 then -⌊-q⌋ else ⌊q⌋

/-- The distinct exit paths of withdrawCash (lines 414-478). -/
inductive WdOutcome
  | invalidAmount
  | notMultiple100
  | insufficientFunds
  | insufficientCash
  | infeasible
  | cancelled
  | success
deriving DecidableEq

/-- The observable state touched by withdrawCash: outcome, account balance,
    ATM inventory. -/
structure WdResult where
  outcome : WdOutcome
  balance : ℚ
  atm : ATM
deriving DecidableEq

/-- The inventory debit on the committed path (lines 458-461). -/
def atmDebit (atm : ATM) (d : Den) : ATM :=
  ⟨atm.note2000 - d.n2000, atm.note500 - d.n500,
    atm.note200 - d.n200, atm.note100 - d.n100⟩

/-- The total cash in the machine (line 431). -/
def atmTotal (atm : ATM) : Int :=
  atm.note2000 * 2000 + atm.note500 * 500 + atm.note200 * 200 + atm.note100 * 100

/-- withdrawCash (lines 414-478).  `damount` is the double read at line 416,
    `confirm` the integer read at line 451, `possible0` the value held by the
    uninitialized local `possible` (line 436).  Checks in source order:
    non-positive amount (line 417), multiple-of-100 on the truncated amount
    (line 421), balance with the 0.0001 epsilon (line 426), total ATM cash
    (line 432), solver feasibility (line 438), confirmation (line 452); then
    the account debit and the four inventory debits (lines 457-461). -/
def withdrawCash (damount : ℚ) (confirm : Int) (possible0 : Bool)
    (balance : ℚ) (atm : ATM) : WdResult :=
  if damount ≤ 0 then ⟨.invalidAmount, balance, atm⟩
  else if (ctrunc damount).tmod 100 ≠ 0 then ⟨.notMultiple100, balance, atm⟩
  else if ctrunc damount > ctrunc (balance + 1 / 10000) then ⟨.insufficientFunds, balance, atm⟩
  else if ctrunc damount > atmTotal atm then ⟨.insufficientCash, balance, atm⟩
  else if (calculateDenominations (ctrunc damount) atm possible0).2 = false then
    ⟨.infeasible, balance, atm⟩
  else if confirm = 0 then ⟨.cancelled, balance, atm⟩
  else
    ⟨.success, balance - ((ctrunc damount : Int) : ℚ),
      atmDebit atm (calculateDenominations (ctrunc damount) atm possible0).1⟩

/-- The administrative refill (adminMenu choice 2, lines 498-516): rejects the
    whole operation if any delta is negative, otherwise adds all four. -/
def refillATM (atm : ATM) (a b c d : Int) : ATM :=
  if a < 0 ∨ b < 0 ∨ c < 0 ∨ d < 0 then atm
  else ⟨atm.note2000 + a, atm.note500 + b, atm.note200 + c, atm.note100 + d⟩

/- ----- login and the lock protocol ----- -/

/-- The authentication-relevant fields of struct Account (lines 24-31):
    the PIN, the consecutive-failure counter, and the lock flag (a C int,
    0 = unlocked). -/
structure Acct where
  pin : Int
  loginAttempts : Int
  locked : Int
deriving DecidableEq

/-- Per-attempt observable outcome of login (lines 290-326). -/
inductive LoginOutcome
  | success
  | wrongPin
  | accountLocked
deriving DecidableEq

/-- One PIN attempt against an account, from login (lines 290-326).  A locked
    account is rejected at entry of the call (lines 300-303) before any PIN is
    compared; a correct PIN resets the failure counter (line 309); a wrong PIN
    increments it and, when no attempts remain (`3 - loginAttempts <= 0`,
    lines 314-323), sets the lock flag and ends the call.  Since the call
    returns as soon as the account becomes locked, each later attempt runs the
    entry check of a fresh call, so per-attempt steps compose the observable
    behaviour of the loop in lines 305-325. -/
def loginStep (acc : Acct) (pin : Int) : Acct × LoginOutcome :=
  if acc.locked ≠ 0 then (acc, .accountLocked)
  else if pin = acc.pin then ({ acc with loginAttempts := 0 }, .success)
  else if 3 - (acc.loginAttempts + 1) > 0 then
    ({ acc with loginAttempts := acc.loginAttempts + 1 }, .wrongPin)
  else
    ({ acc with loginAttempts := acc.loginAttempts + 1, locked := 1 }, .wrongPin)

/-- The administrative unlock (adminMenu choice 4, lines 526-537): clears the
    lock flag and resets the failure counter. -/
def adminUnlock (acc : Acct) : Acct := { acc with locked := 0, loginAttempts := 0 }

/-- The invariant of a DenominationPlan from the spec (section 3): for each
    denomination a non-negative count within the inventory, summing exactly to
    the requested amount.  Used to state feasibility of a withdrawal. -/
def feasiblePlan (amount : Int) (atm : ATM) (d : Den) : Prop :=
  0 ≤ d.n2000 ∧ 0 ≤ d.n500 ∧ 0 ≤ d.n200 ∧ 0 ≤ d.n100 ∧
  d.n2000 ≤ atm.note2000 ∧ d.n500 ≤ atm.note500 ∧
  d.n200 ≤ atm.note200 ∧ d.n100 ≤ atm.note100 ∧
  2000 * d.n2000 + 500 * d.n500 + 200 * d.n200 + 100 * d.n100 = amount

instance (amount : Int) (atm : ATM) (d : Den) : Decidable (feasiblePlan amount atm d) := by
  unfold feasiblePlan
  infer_instance

/- ----- Helper lemmas about the greedy pass and the backtracking search ----- -/

theorem capAt_le (use note : Int) : capAt use note ≤ note ∨ capAt use note = use := by
  unfold capAt
  split <;> omega

theorem capAt_le_note (use note : Int) : capAt use note ≤ note := by
  unfold capAt
  split <;> omega

theorem capAt_nonneg (use note : Int) (hu : 0 ≤ use) (hn : 0 ≤ note) :
    0 ≤ capAt use note := by
  unfold capAt
  split <;> omega

theorem capAt_tdiv_mul_le (r d note : Int) (hr : 0 ≤ r) (hd : 0 < d) :
    capAt (r.tdiv d) note * d ≤ r := by
  rw [Int.tdiv_eq_ediv hr hd.le]
  unfold capAt
  split
  · calc note * d ≤ r / d * d := by
          apply mul_le_mul_of_nonneg_right _ hd.le
          omega
      _ ≤ r := Int.ediv_mul_le r (by omega)
  · exact Int.ediv_mul_le r (by omega)

theorem rem1_nonneg (amount : Int) (atm : ATM) (hA : 0 ≤ amount) : 0 ≤ rem1 amount atm := by
  have h := capAt_tdiv_mul_le amount 2000 atm.note2000 hA (by norm_num)
  unfold rem1 g2000
  omega

theorem rem2_nonneg (amount : Int) (atm : ATM) (hA : 0 ≤ amount) : 0 ≤ rem2 amount atm := by
  have h := capAt_tdiv_mul_le (rem1 amount atm) 500 atm.note500
    (rem1_nonneg amount atm hA) (by norm_num)
  unfold rem2 g500
  omega

theorem rem3_nonneg (amount : Int) (atm : ATM) (hA : 0 ≤ amount) : 0 ≤ rem3 amount atm := by
  have h := capAt_tdiv_mul_le (rem2 amount atm) 200 atm.note200
    (rem2_nonneg amount atm hA) (by norm_num)
  unfold rem3 g200
  omega

theorem rem3_eq (amount : Int) (atm : ATM) :
    rem3 amount atm =
      amount - (g2000 amount atm * 2000 + g500 amount atm * 500 + g200 amount atm * 200) := by
  unfold rem3 rem2 rem1
  ring

theorem greedy_value (amount : Int) (atm : ATM) :
    2000 * g2000 amount atm + 500 * g500 amount atm + 200 * g200 amount atm +
      100 * g100 amount atm = amount - rem4 amount atm := by
  unfold rem4 rem3 rem2 rem1
  ring

theorem mem_downTo0 (g x : Int) (hx : x ∈ downTo0 g) : 0 ≤ x ∧ x ≤ g := by
  unfold downTo0 at hx
  split at hx
  · simp at hx
  · simp only [List.mem_map, List.mem_range] at hx
    obtain ⟨i, hi, rfl⟩ := hx
    omega

theorem mem_specDescending (g x : Int) (hx : x ∈ specDescending g) : 0 ≤ x ∧ x ≤ max g 0 := by
  unfold specDescending at hx
  simp only [List.mem_map, List.mem_reverse, List.mem_range] at hx
  obtain ⟨n, hn, rfl⟩ := hx
  omega

/-- Central incompleteness fact: once the greedy pass has failed
    (nonzero final remainder), no combination examined by the backtracking
    loops can be accepted, because every candidate residual is at least the
    greedy residual after the 200-level and congruent to it modulo 100. -/
theorem no_combo (amount rem : Int) (atm : ATM) (hA : 0 ≤ amount)
    (hfail : rem4 amount atm ≠ 0) (r2000 r500 r200 : Int)
    (hb2 : 0 ≤ r2000) (hg2 : r2000 ≤ g2000 amount atm)
    (hb5 : 0 ≤ r500) (hg5 : r500 ≤ g500 amount atm)
    (hb0 : 0 ≤ r200) (hg0 : r200 ≤ g200 amount atm)
    (hrem : rem = amount - (2000 * r2000 + 500 * r500 + 200 * r200)) :
    ¬(0 ≤ rem ∧ rem % 100 = 0 ∧ rem / 100 ≤ atm.note100) := by
  rintro ⟨hr, hm, hd⟩
  have h3 : 0 ≤ rem3 amount atm := rem3_nonneg amount atm hA
  have he := rem3_eq amount atm
  have h4 : rem4 amount atm =
      rem3 amount atm - capAt ((rem3 amount atm).tdiv 100) atm.note100 * 100 := rfl
  rw [Int.tdiv_eq_ediv h3 (by norm_num)] at h4
  unfold capAt at h4
  split at h4 <;> omega

theorem calcDen_cases (amount : Int) (atm : ATM) (p0 : Bool) :
    (rem4 amount atm = 0 ∧
      calculateDenominations amount atm p0 = (greedyPlan amount atm, true)) ∨
    (rem4 amount atm ≠ 0 ∧
      ∃ d, backtrack amount atm (greedyPlan amount atm) = some d ∧
        calculateDenominations amount atm p0 = (d, true)) ∨
    (rem4 amount atm ≠ 0 ∧
      calculateDenominations amount atm p0 = (greedyPlan amount atm, false)) := by
  unfold calculateDenominations
  by_cases h0 : rem4 amount atm = 0
  · left
    exact ⟨h0, by rw [if_pos h0]⟩
  · right
    rw [if_neg h0]
    cases p0 with
    | false =>
      simp only [Bool.false_eq_true, if_false]
      cases hb : backtrack amount atm (greedyPlan amount atm) with
      | none => exact Or.inr ⟨h0, rfl⟩
      | some d => exact Or.inl ⟨h0, d, rfl, rfl⟩
    | true => exact Or.inr ⟨h0, by simp⟩

theorem backtrack_none (amount : Int) (atm : ATM) (hA : 0 ≤ amount)
    (hfail : rem4 amount atm ≠ 0) :
    backtrack amount atm (greedyPlan amount atm) = none := by
  unfold backtrack
  rw [List.findSome?_eq_none_iff]
  intro r2000 h2
  rw [List.findSome?_eq_none_iff]
  intro r500 h5
  rw [List.findSome?_eq_none_iff]
  intro r200 h0
  have hm2 : 0 ≤ r2000 ∧ r2000 ≤ g2000 amount atm := mem_downTo0 _ _ h2
  have hm5 : 0 ≤ r500 ∧ r500 ≤ g500 amount atm := mem_downTo0 _ _ h5
  have hm0 : 0 ≤ r200 ∧ r200 ≤ g200 amount atm := mem_downTo0 _ _ h0
  simp only [tryCombo]
  split_ifs with hneg hmod hdiv
  · rfl
  · rfl
  · exfalso
    have hr : 0 ≤ amount - (r2000 * 2000 + r500 * 500 + r200 * 200) := by omega
    rw [Int.tmod_eq_emod hr (by norm_num)] at hmod
    rw [Int.tdiv_eq_ediv hr (by norm_num)] at hdiv
    exact no_combo amount (amount - (r2000 * 2000 + r500 * 500 + r200 * 200)) atm hA hfail
      r2000 r500 r200 hm2.1 hm2.2 hm5.1 hm5.2 hm0.1 hm0.2
      (by ring) ⟨by omega, by omega, by omega⟩
  · rfl

theorem backtrack_some (amount : Int) (atm : ATM) (g : Den) (d : Den)
    (h : backtrack amount atm g = some d) :
    2000 * d.n2000 + 500 * d.n500 + 200 * d.n200 + 100 * d.n100 = amount ∧
    0 ≤ d.n2000 ∧ d.n2000 ≤ g.n2000 ∧
    0 ≤ d.n500 ∧ d.n500 ≤ g.n500 ∧
    0 ≤ d.n200 ∧ d.n200 ≤ g.n200 ∧
    0 ≤ d.n100 ∧ d.n100 ≤ atm.note100 := by
  unfold backtrack at h
  obtain ⟨r2000, h2mem, h⟩ := List.exists_of_findSome?_eq_some h
  obtain ⟨r500, h5mem, h⟩ := List.exists_of_findSome?_eq_some h
  obtain ⟨r200, h0mem, h⟩ := List.exists_of_findSome?_eq_some h
  have hm2 := mem_downTo0 _ _ h2mem
  have hm5 := mem_downTo0 _ _ h5mem
  have hm0 := mem_downTo0 _ _ h0mem
  simp only [tryCombo] at h
  set rem : Int := amount - (r2000 * 2000 + r500 * 500 + r200 * 200) with hrem
  by_cases hneg : rem < 0
  · rw [if_pos hneg] at h
    exact absurd h (by simp)
  rw [if_neg hneg] at h
  by_cases hmod : rem.tmod 100 ≠ 0
  · rw [if_pos hmod] at h
    exact absurd h (by simp)
  rw [if_neg hmod] at h
  by_cases hdiv : rem.tdiv 100 ≤ atm.note100
  · rw [if_pos hdiv] at h
    rw [Option.some.injEq] at h
    subst h
    have hr : 0 ≤ rem := by omega
    have hmod2 : rem % 100 = 0 := by
      rw [Int.tmod_eq_emod hr (by norm_num)] at hmod
      omega
    have htd : rem.tdiv 100 = rem / 100 := Int.tdiv_eq_ediv hr (by norm_num)
    have hdiv2 : rem / 100 ≤ atm.note100 := by
      rw [htd] at hdiv
      exact hdiv
    refine ⟨?_, hm2.1, hm2.2, hm5.1, hm5.2, hm0.1, hm0.2, ?_, ?_⟩
    · dsimp only
      rw [htd]
      omega
    · dsimp only
      rw [htd]
      exact Int.ediv_nonneg hr (by norm_num)
    · dsimp only
      rw [htd]
      exact hdiv2
  · rw [if_neg hdiv] at h
    exact absurd h (by simp)

theorem calcDen_le (amount : Int) (atm : ATM) (p0 : Bool) :
    (calculateDenominations amount atm p0).1.n2000 ≤ atm.note2000 ∧
    (calculateDenominations amount atm p0).1.n500 ≤ atm.note500 ∧
    (calculateDenominations amount atm p0).1.n200 ≤ atm.note200 ∧
    (calculateDenominations amount atm p0).1.n100 ≤ atm.note100 := by
  rcases calcDen_cases amount atm p0 with ⟨h0, hc⟩ | ⟨h0, d, hb, hc⟩ | ⟨h0, hc⟩ <;> rw [hc]
  · exact ⟨capAt_le_note _ _, capAt_le_note _ _, capAt_le_note _ _, capAt_le_note _ _⟩
  · have hs := backtrack_some amount atm _ d hb
    have hg2 : (greedyPlan amount atm).n2000 ≤ atm.note2000 := capAt_le_note _ _
    have hg5 : (greedyPlan amount atm).n500 ≤ atm.note500 := capAt_le_note _ _
    have hg0 : (greedyPlan amount atm).n200 ≤ atm.note200 := capAt_le_note _ _
    obtain ⟨hv, hb2, hu2, hb5, hu5, hb0, hu0, hb1, hu1⟩ := hs
    exact ⟨by dsimp only; omega, by dsimp only; omega, by dsimp only; omega,
      by dsimp only; omega⟩
  · exact ⟨capAt_le_note _ _, capAt_le_note _ _, capAt_le_note _ _, capAt_le_note _ _⟩

/- ----- Claim theorems ----- -/

/-- C1: whenever calculateDenominations reports the withdrawal possible, the
    returned plan sums exactly to the requested amount:
    2000*n2000 + 500*n500 + 200*n200 + 100*n100 = amount, for every requested
    amount, every inventory snapshot, and either value of the uninitialized
    possible flag. -/
theorem calculateDenominations_sum (amount : Int) (atm : ATM) (possible0 : Bool)
    (h : (calculateDenominations amount atm possible0).2 = true) :
    2000 * (calculateDenominations amount atm possible0).1.n2000 +
      500 * (calculateDenominations amount atm possible0).1.n500 +
      200 * (calculateDenominations amount atm possible0).1.n200 +
      100 * (calculateDenominations amount atm possible0).1.n100 = amount := by
  rcases calcDen_cases amount atm possible0 with ⟨h0, hc⟩ | ⟨h0, d, hb, hc⟩ | ⟨h0, hc⟩
  · rw [hc]
    have hv := greedy_value amount atm
    dsimp only [greedyPlan]
    omega
  · rw [hc]
    have hs := backtrack_some amount atm _ d hb
    dsimp only
    exact hs.1
  · rw [hc] at h
    simp at h

/-- Witness for C1: a concrete dispensable request. -/
theorem calculateDenominations_sum_witness :
    (calculateDenominations 2300 ⟨10, 20, 50, 100⟩ false).2 = true ∧
    2000 * (calculateDenominations 2300 ⟨10, 20, 50, 100⟩ false).1.n2000 +
      500 * (calculateDenominations 2300 ⟨10, 20, 50, 100⟩ false).1.n500 +
      200 * (calculateDenominations 2300 ⟨10, 20, 50, 100⟩ false).1.n200 +
      100 * (calculateDenominations 2300 ⟨10, 20, 50, 100⟩ false).1.n100 = 2300 :=
  ⟨by decide, calculateDenominations_sum 2300 ⟨10, 20, 50, 100⟩ false (by decide)⟩

/-- C2: whenever calculateDenominations reports the withdrawal possible, each
    count of the returned plan is at most the corresponding inventory count at
    solve time. -/
theorem calculateDenominations_le_inventory (amount : Int) (atm : ATM) (possible0 : Bool)
    (h : (calculateDenominations amount atm possible0).2 = true) :
    (calculateDenominations amount atm possible0).1.n2000 ≤ atm.note2000 ∧
    (calculateDenominations amount atm possible0).1.n500 ≤ atm.note500 ∧
    (calculateDenominations amount atm possible0).1.n200 ≤ atm.note200 ∧
    (calculateDenominations amount atm possible0).1.n100 ≤ atm.note100 :=
  calcDen_le amount atm possible0

/-- Witness for C2: a concrete dispensable request. -/
theorem calculateDenominations_le_inventory_witness :
    (calculateDenominations 2300 ⟨10, 20, 50, 100⟩ true).2 = true ∧
    ((calculateDenominations 2300 ⟨10, 20, 50, 100⟩ true).1.n2000 ≤ 10 ∧
     (calculateDenominations 2300 ⟨10, 20, 50, 100⟩ true).1.n500 ≤ 20 ∧
     (calculateDenominations 2300 ⟨10, 20, 50, 100⟩ true).1.n200 ≤ 50 ∧
     (calculateDenominations 2300 ⟨10, 20, 50, 100⟩ true).1.n100 ≤ 100) :=
  ⟨by decide, calculateDenominations_le_inventory 2300 ⟨10, 20, 50, 100⟩ true (by decide)⟩

/-- C5 (counterexample): a positive multiple of 100 with a feasible plan that
    calculateDenominations nevertheless reports as not possible.  With
    inventory {2000:0, 500:1, 200:3, 100:0} the amount 600 is dispensable as
    three 200-notes, but the greedy pass takes the single 500-note and the
    backtracking loops only lower counts below the greedy figures, so the
    solver reports infeasible (for either value of the uninitialized possible
    flag). -/
theorem calculateDenominations_incomplete_cex :
    feasiblePlan 600 ⟨0, 1, 3, 0⟩ ⟨0, 0, 3, 0⟩ ∧
    0 < (600 : Int) ∧ (600 : Int) % 100 = 0 ∧
    (calculateDenominations 600 ⟨0, 1, 3, 0⟩ false).2 = false ∧
    (calculateDenominations 600 ⟨0, 1, 3, 0⟩ true).2 = false := by
  decide

/-- C5 (amended): the bounded backtracking window covers every case in which
    the smallest denomination can absorb the residual left by the greedy pass
    over the top three denominations: if the amount is a non-negative multiple
    of 100 and the available 100-notes cover that residual, the solver reports
    the withdrawal possible.  (Feasibility alone does not suffice; see the
    counterexample.) -/
theorem calculateDenominations_complete_when_100s_cover (amount : Int) (atm : ATM)
    (p0 : Bool) (hA : 0 ≤ amount) (hm : amount % 100 = 0)
    (hcover : rem3 amount atm ≤ 100 * atm.note100) :
    (calculateDenominations amount atm p0).2 = true := by
  have h3 : 0 ≤ rem3 amount atm := rem3_nonneg amount atm hA
  have he := rem3_eq amount atm
  have hmod : rem3 amount atm % 100 = 0 := by omega
  have h4 : rem4 amount atm =
      rem3 amount atm - capAt ((rem3 amount atm).tdiv 100) atm.note100 * 100 := rfl
  rw [Int.tdiv_eq_ediv h3 (by norm_num)] at h4
  unfold capAt at h4
  have h0 : rem4 amount atm = 0 := by
    split at h4 <;> omega
  unfold calculateDenominations
  rw [if_pos h0]

/-- Witness for the amended C5: amount 300 against inventory
    {2000:1, 500:0, 200:1, 100:5}; the greedy residual 100 is covered by the
    five 100-notes. -/
theorem calculateDenominations_complete_when_100s_cover_witness :
    0 ≤ (300 : Int) ∧ (300 : Int) % 100 = 0 ∧
    rem3 300 ⟨1, 0, 1, 5⟩ ≤ 100 * (ATM.mk 1 0 1 5).note100 ∧
    (calculateDenominations 300 ⟨1, 0, 1, 5⟩ false).2 = true :=
  ⟨by decide, by decide, by decide,
    calculateDenominations_complete_when_100s_cover 300 ⟨1, 0, 1, 5⟩ false
      (by decide) (by decide) (by decide)⟩

/-- C10: the uninitialized-possible claim fails on the code.  On the reachable
    input amount = 300 with inventory {2000:1, 500:0, 200:1, 100:0} (the
    Infeasible scenario of the spec), the greedy pass leaves remainder 100, so
    the call reaches the backtracking loop guards, whose first evaluation reads
    `*possible` before the call has assigned it; withdrawCash passes that flag
    uninitialized. -/
theorem calculateDenominations_reads_uninit :
    readsUninitPossible 300 ⟨1, 0, 1, 0⟩ = true ∧
    (calculateDenominations 300 ⟨1, 0, 1, 0⟩ false).2 = false ∧
    (calculateDenominations 300 ⟨1, 0, 1, 0⟩ true).2 = false := by
  decide

/- ----- C4: the source solver equals the spec reference algorithm ----- -/

theorem g2000_nonneg (amount : Int) (atm : ATM) (hA : 0 ≤ amount)
    (hn : 0 ≤ atm.note2000) : 0 ≤ g2000 amount atm :=
  capAt_nonneg _ _ (Int.tdiv_nonneg hA (by norm_num)) hn

theorem g500_nonneg (amount : Int) (atm : ATM) (hA : 0 ≤ amount)
    (hn : 0 ≤ atm.note500) : 0 ≤ g500 amount atm :=
  capAt_nonneg _ _ (Int.tdiv_nonneg (rem1_nonneg amount atm hA) (by norm_num)) hn

theorem g200_nonneg (amount : Int) (atm : ATM) (hA : 0 ≤ amount)
    (hn : 0 ≤ atm.note200) : 0 ≤ g200 amount atm :=
  capAt_nonneg _ _ (Int.tdiv_nonneg (rem2_nonneg amount atm hA) (by norm_num)) hn

theorem specTake_g2000 (amount : Int) (atm : ATM) (hA : 0 ≤ amount) :
    specTake amount 2000 atm.note2000 = g2000 amount atm := by
  unfold specTake g2000 capAt
  rw [Int.tdiv_eq_ediv hA (by norm_num)]
  split <;> omega

theorem spec_rem1 (amount : Int) (atm : ATM) :
    amount - 2000 * g2000 amount atm = rem1 amount atm := by
  unfold rem1
  ring

theorem specTake_g500 (amount : Int) (atm : ATM) (hA : 0 ≤ amount) :
    specTake (rem1 amount atm) 500 atm.note500 = g500 amount atm := by
  unfold specTake g500 capAt
  rw [Int.tdiv_eq_ediv (rem1_nonneg amount atm hA) (by norm_num)]
  split <;> omega

theorem spec_rem2 (amount : Int) (atm : ATM) :
    rem1 amount atm - 500 * g500 amount atm = rem2 amount atm := by
  unfold rem2
  ring

theorem specTake_g200 (amount : Int) (atm : ATM) (hA : 0 ≤ amount) :
    specTake (rem2 amount atm) 200 atm.note200 = g200 amount atm := by
  unfold specTake g200 capAt
  rw [Int.tdiv_eq_ediv (rem2_nonneg amount atm hA) (by norm_num)]
  split <;> omega

theorem spec_rem3 (amount : Int) (atm : ATM) :
    rem2 amount atm - 200 * g200 amount atm = rem3 amount atm := by
  unfold rem3
  ring

theorem specTake_g100 (amount : Int) (atm : ATM) (hA : 0 ≤ amount) :
    specTake (rem3 amount atm) 100 atm.note100 = g100 amount atm := by
  unfold specTake g100 capAt
  rw [Int.tdiv_eq_ediv (rem3_nonneg amount atm hA) (by norm_num)]
  split <;> omega

theorem spec_rem4 (amount : Int) (atm : ATM) :
    rem3 amount atm - 100 * g100 amount atm = rem4 amount atm := by
  unfold rem4
  ring

theorem specSearch_none (amount : Int) (atm : ATM) (hA : 0 ≤ amount)
    (h2n : 0 ≤ atm.note2000) (h5n : 0 ≤ atm.note500) (h0n : 0 ≤ atm.note200)
    (hfail : rem4 amount atm ≠ 0) :
    specSearch amount atm (g2000 amount atm) (g500 amount atm) (g200 amount atm) = none := by
  unfold specSearch
  rw [List.findSome?_eq_none_iff]
  intro k2000 hk2
  rw [List.findSome?_eq_none_iff]
  intro k500 hk5
  rw [List.findSome?_eq_none_iff]
  intro k200 hk0
  have hg2 := g2000_nonneg amount atm hA h2n
  have hg5 := g500_nonneg amount atm hA h5n
  have hg0 := g200_nonneg amount atm hA h0n
  have hm2 := mem_specDescending _ _ hk2
  have hm5 := mem_specDescending _ _ hk5
  have hm0 := mem_specDescending _ _ hk0
  simp only
  split_ifs with hcond
  · exfalso
    exact no_combo amount (amount - (2000 * k2000 + 500 * k500 + 200 * k200)) atm hA hfail
      k2000 k500 k200 (by omega) (by omega) (by omega) (by omega) (by omega) (by omega)
      rfl hcond
  · rfl

/-- C4: calculateDenominations computes exactly the reference algorithm of the
    spec (greedy pass, then bounded descending backtracking over the top three
    denominations, first hit wins), for every non-negative amount and
    non-negative inventory and either value of the uninitialized possible
    flag; in particular, for inventory {2000:10, 500:20, 200:50, 100:100} and
    amount 2300 the returned plan is {2000:1, 500:0, 200:1, 100:1}. -/
theorem calculateDenominations_eq_solveSpec :
    (∀ (amount : Int) (atm : ATM) (p0 : Bool), 0 ≤ amount →
      0 ≤ atm.note2000 → 0 ≤ atm.note500 → 0 ≤ atm.note200 →
      calculateDenominations amount atm p0 = solveSpec amount atm) ∧
    (∀ p0 : Bool, calculateDenominations 2300 ⟨10, 20, 50, 100⟩ p0 =
      (⟨1, 0, 1, 1⟩, true)) := by
  constructor
  · intro amount atm p0 hA h2n h5n h0n
    simp only [solveSpec]
    rw [specTake_g2000 amount atm hA, spec_rem1, specTake_g500 amount atm hA, spec_rem2,
      specTake_g200 amount atm hA, spec_rem3, specTake_g100 amount atm hA, spec_rem4]
    unfold calculateDenominations
    by_cases h0 : rem4 amount atm = 0
    · rw [if_pos h0, if_pos h0]
      rfl
    · rw [if_neg h0, if_neg h0]
      rw [backtrack_none amount atm hA h0, specSearch_none amount atm hA h2n h5n h0n h0]
      cases p0 <;> simp [greedyPlan]
  · intro p0
    cases p0 <;> decide

/-- Witness for C4: the equality instantiated at the concrete scenario input. -/
theorem calculateDenominations_eq_solveSpec_witness :
    calculateDenominations 2300 ⟨10, 20, 50, 100⟩ false = solveSpec 2300 ⟨10, 20, 50, 100⟩ :=
  calculateDenominations_eq_solveSpec.1 2300 ⟨10, 20, 50, 100⟩ false
    (by norm_num) (by norm_num) (by norm_num) (by norm_num)

/- ----- Helper lemmas about ctrunc ----- -/

theorem ctrunc_le (q : ℚ) (hq : 0 ≤ q) : (ctrunc q : ℚ) ≤ q := by
  unfold ctrunc
  rw [if_neg (not_lt.mpr hq)]
  exact Int.floor_le q

theorem ctrunc_nonneg (q : ℚ) (hq : 0 ≤ q) : 0 ≤ ctrunc q := by
  unfold ctrunc
  rw [if_neg (not_lt.mpr hq)]
  exact Int.floor_nonneg.mpr hq

/-- C3: withdrawCash applies the account debit and the inventory debit
    together on the confirmed success path, and leaves both the balance and
    all four inventory counts unchanged on every rejection path (invalid
    amount, non-multiple of 100, insufficient funds, insufficient total cash,
    solver infeasible, declined confirmation). -/
theorem withdrawCash_atomic (damount : ℚ) (confirm : Int) (p0 : Bool)
    (balance : ℚ) (atm : ATM) :
    ((withdrawCash damount confirm p0 balance atm).outcome = WdOutcome.success →
      (withdrawCash damount confirm p0 balance atm).balance =
        balance - ((ctrunc damount : Int) : ℚ) ∧
      (withdrawCash damount confirm p0 balance atm).atm =
        atmDebit atm (calculateDenominations (ctrunc damount) atm p0).1) ∧
    ((withdrawCash damount confirm p0 balance atm).outcome ≠ WdOutcome.success →
      (withdrawCash damount confirm p0 balance atm).balance = balance ∧
      (withdrawCash damount confirm p0 balance atm).atm = atm) := by
  unfold withdrawCash
  split_ifs <;> constructor <;> intro h <;> simp_all

/-- Witness for C3: a concrete confirmed withdrawal of 100 from balance 1000
    with the default inventory. -/
theorem withdrawCash_atomic_witness :
    (withdrawCash 100 1 false 1000 ⟨10, 20, 50, 100⟩).outcome = WdOutcome.success ∧
    (withdrawCash 100 1 false 1000 ⟨10, 20, 50, 100⟩).balance =
      1000 - ((ctrunc (100 : ℚ) : Int) : ℚ) ∧
    (withdrawCash 100 1 false 1000 ⟨10, 20, 50, 100⟩).atm =
      atmDebit ⟨10, 20, 50, 100⟩
        (calculateDenominations (ctrunc (100 : ℚ)) ⟨10, 20, 50, 100⟩ false).1 := by
  have e1 : ctrunc (100 : ℚ) = 100 := by
    unfold ctrunc
    norm_num
  have hs : (withdrawCash 100 1 false 1000 ⟨10, 20, 50, 100⟩).outcome = WdOutcome.success := by
    have e2 : ctrunc ((1000 : ℚ) + 1 / 10000) = 1000 := by
      unfold ctrunc
      norm_num
    unfold withdrawCash
    rw [e1, e2]
    norm_num [atmTotal, show ((100 : Int).tmod 100) = 0 from by decide,
      show (calculateDenominations 100 ⟨10, 20, 50, 100⟩ false).2 = true from by decide]
  have h := (withdrawCash_atomic 100 1 false 1000 ⟨10, 20, 50, 100⟩).1 hs
  exact ⟨hs, h.1, h.2⟩

/-- C6 (counterexample): a non-negative balance that one confirmed withdrawal
    drives below zero.  The balance 99.9999 is non-negative, but the epsilon
    comparison `amount > (int)(balance + 0.0001)` lets a withdrawal of 100
    through, leaving a negative balance. -/
theorem withdrawCash_negative_balance_cex :
    (0 : ℚ) ≤ 999999 / 10000 ∧
    (withdrawCash 100 1 false (999999 / 10000) ⟨10, 20, 50, 100⟩).outcome =
      WdOutcome.success ∧
    (withdrawCash 100 1 false (999999 / 10000) ⟨10, 20, 50, 100⟩).balance < 0 := by
  have e1 : ctrunc (100 : ℚ) = 100 := by
    unfold ctrunc
    norm_num
  have e2 : ctrunc ((999999 : ℚ) / 10000 + 1 / 10000) = 100 := by
    unfold ctrunc
    norm_num
  have hred : withdrawCash 100 1 false (999999 / 10000) ⟨10, 20, 50, 100⟩ =
      ⟨WdOutcome.success, 999999 / 10000 - ((100 : Int) : ℚ),
        atmDebit ⟨10, 20, 50, 100⟩ (calculateDenominations 100 ⟨10, 20, 50, 100⟩ false).1⟩ := by
    unfold withdrawCash
    rw [e1, e2]
    norm_num [atmTotal, show ((100 : Int).tmod 100) = 0 from by decide,
      show (calculateDenominations 100 ⟨10, 20, 50, 100⟩ false).2 = true from by decide]
  refine ⟨by norm_num, by rw [hred], ?_⟩
  rw [hred]
  norm_num

/-- C6 (amended): starting from a non-negative balance of two-decimal
    precision (an integer number of hundredths, as the data model stores
    balances), withdrawCash never drives the balance below zero: the truncated
    epsilon comparison then lets through only amounts at most the balance. -/
theorem withdrawCash_balance_nonneg (k : ℕ) (damount : ℚ) (confirm : Int)
    (p0 : Bool) (atm : ATM) :
    0 ≤ (withdrawCash damount confirm p0 ((k : ℚ) / 100) atm).balance := by
  have hb : (0 : ℚ) ≤ (k : ℚ) / 100 := by positivity
  unfold withdrawCash
  split_ifs with h1 h2 h3 h4 h5 h6
  · exact hb
  · exact hb
  · exact hb
  · exact hb
  · exact hb
  · exact hb
  · have hmle : ctrunc damount ≤ ctrunc ((k : ℚ) / 100 + 1 / 10000) := by omega
    have htr : (ctrunc ((k : ℚ) / 100 + 1 / 10000) : ℚ) ≤ (k : ℚ) / 100 + 1 / 10000 :=
      ctrunc_le _ (by positivity)
    have hq : ((ctrunc damount : Int) : ℚ) ≤ (k : ℚ) / 100 + 1 / 10000 :=
      le_trans (by exact_mod_cast hmle) htr
    have h5q : (10000 : ℚ) * ((ctrunc damount : Int) : ℚ) ≤ 100 * (k : ℚ) + 1 := by
      linarith
    have h6z : (10000 : ℤ) * ctrunc damount ≤ 100 * (k : ℤ) + 1 := by
      exact_mod_cast h5q
    have h7 : (ctrunc damount * 100 : ℤ) ≤ (k : ℤ) := by omega
    have h8 : ((ctrunc damount : Int) : ℚ) ≤ (k : ℚ) / 100 := by
      rw [le_div_iff₀ (by norm_num : (0 : ℚ) < 100)]
      exact_mod_cast h7
    show 0 ≤ (k : ℚ) / 100 - ((ctrunc damount : Int) : ℚ)
    linarith

/-- C7: starting from non-negative inventory counts, both a withdrawal (which
    on commit subtracts a plan bounded by the current counts) and an
    administrative refill (which rejects any negative delta, leaving all
    counts unchanged) keep all four counts non-negative. -/
theorem inventory_counts_nonneg (atm : ATM)
    (h2 : 0 ≤ atm.note2000) (h5 : 0 ≤ atm.note500)
    (h0 : 0 ≤ atm.note200) (h1 : 0 ≤ atm.note100)
    (damount : ℚ) (confirm : Int) (p0 : Bool) (balance : ℚ) (a b c d : Int) :
    (0 ≤ (withdrawCash damount confirm p0 balance atm).atm.note2000 ∧
     0 ≤ (withdrawCash damount confirm p0 balance atm).atm.note500 ∧
     0 ≤ (withdrawCash damount confirm p0 balance atm).atm.note200 ∧
     0 ≤ (withdrawCash damount confirm p0 balance atm).atm.note100) ∧
    (0 ≤ (refillATM atm a b c d).note2000 ∧ 0 ≤ (refillATM atm a b c d).note500 ∧
     0 ≤ (refillATM atm a b c d).note200 ∧ 0 ≤ (refillATM atm a b c d).note100) ∧
    ((a < 0 ∨ b < 0 ∨ c < 0 ∨ d < 0) → refillATM atm a b c d = atm) := by
  refine ⟨?_, ?_, ?_⟩
  · have hle := calcDen_le (ctrunc damount) atm p0
    unfold withdrawCash
    split_ifs <;> try exact ⟨h2, h5, h0, h1⟩
    unfold atmDebit
    obtain ⟨hl2, hl5, hl0, hl1⟩ := hle
    exact ⟨by dsimp only; omega, by dsimp only; omega, by dsimp only; omega,
      by dsimp only; omega⟩
  · unfold refillATM
    split_ifs with hneg
    · exact ⟨h2, h5, h0, h1⟩
    · push_neg at hneg
      obtain ⟨ha, hbn, hc, hd⟩ := hneg
      exact ⟨by dsimp only; omega, by dsimp only; omega, by dsimp only; omega,
        by dsimp only; omega⟩
  · intro hneg
    unfold refillATM
    rw [if_pos hneg]

/-- Witness for C7: default inventory, a confirmed withdrawal of 100, and a
    refill request containing a negative delta. -/
theorem inventory_counts_nonneg_witness :
    0 ≤ (withdrawCash 100 1 false 1000 ⟨10, 20, 50, 100⟩).atm.note100 ∧
    refillATM ⟨10, 20, 50, 100⟩ (-1) 0 0 0 = ⟨10, 20, 50, 100⟩ := by
  have h := inventory_counts_nonneg ⟨10, 20, 50, 100⟩ (by norm_num) (by norm_num)
    (by norm_num) (by norm_num) 100 1 false 1000 (-1) 0 0 0
  exact ⟨h.1.2.2.2, h.2.2 (by norm_num)⟩

/-- C9 (counterexample): the entered amount 0.5 is positive but not a multiple
    of 100, yet withdrawCash does not reject it: the check truncates the
    double to the int 0 first, `0 % 100 == 0` passes, and the request proceeds
    all the way to a confirmed zero-amount success. -/
theorem withdrawCash_fractional_amount_cex :
    (0 : ℚ) < 1 / 2 ∧
    (¬ ∃ n : Int, (1 / 2 : ℚ) = 100 * n) ∧
    (withdrawCash (1 / 2) 1 false 100 ⟨10, 20, 50, 100⟩).outcome = WdOutcome.success := by
  refine ⟨by norm_num, ?_, ?_⟩
  · rintro ⟨n, hn⟩
    have h2 : (1 : ℚ) = 200 * (n : ℚ) := by linarith
    have h3 : (1 : ℤ) = 200 * n := by exact_mod_cast h2
    omega
  · have e1 : ctrunc ((1 : ℚ) / 2) = 0 := by
      unfold ctrunc
      norm_num
    have e2 : ctrunc ((100 : ℚ) + 1 / 10000) = 100 := by
      unfold ctrunc
      norm_num
    unfold withdrawCash
    rw [e1, e2]
    norm_num [atmTotal, show ((0 : Int).tmod 100) = 0 from by decide,
      show (calculateDenominations 0 ⟨10, 20, 50, 100⟩ false).2 = true from by decide]

/-- C9 (amended): withdrawCash rejects at the two amount-validation checks
    exactly those requests whose entered amount is non-positive or whose
    truncation toward zero is not a multiple of 100 (the fractional part is
    silently discarded); every request that proceeds past validation has a
    truncated amount that is a non-negative, possibly zero, multiple of
    100. -/
theorem withdrawCash_invalid_iff (damount : ℚ) (confirm : Int) (p0 : Bool)
    (balance : ℚ) (atm : ATM) :
    (((withdrawCash damount confirm p0 balance atm).outcome = WdOutcome.invalidAmount ∨
      (withdrawCash damount confirm p0 balance atm).outcome = WdOutcome.notMultiple100) ↔
      (damount ≤ 0 ∨ (ctrunc damount).tmod 100 ≠ 0)) ∧
    (((withdrawCash damount confirm p0 balance atm).outcome ≠ WdOutcome.invalidAmount ∧
      (withdrawCash damount confirm p0 balance atm).outcome ≠ WdOutcome.notMultiple100) →
      0 ≤ ctrunc damount ∧ ctrunc damount % 100 = 0) := by
  have hpos : ¬ damount ≤ 0 → 0 ≤ ctrunc damount := fun h =>
    ctrunc_nonneg damount (le_of_lt (not_le.mp h))
  unfold withdrawCash
  split_ifs with h1 h2 h3 h4 h5 h6 <;> constructor <;> try simp_all
  all_goals
    have hm := Int.tmod_eq_emod hpos (by norm_num : (0 : ℤ) ≤ 100)
    omega

/-- Witness for the amended C9: the full validation characterization
    instantiated at the fractional input 0.5. -/
theorem withdrawCash_invalid_iff_witness :
    (((withdrawCash (1 / 2) 1 false 100 ⟨10, 20, 50, 100⟩).outcome =
        WdOutcome.invalidAmount ∨
      (withdrawCash (1 / 2) 1 false 100 ⟨10, 20, 50, 100⟩).outcome =
        WdOutcome.notMultiple100) ↔
      ((1 / 2 : ℚ) ≤ 0 ∨ (ctrunc (1 / 2 : ℚ)).tmod 100 ≠ 0)) ∧
    (((withdrawCash (1 / 2) 1 false 100 ⟨10, 20, 50, 100⟩).outcome ≠
        WdOutcome.invalidAmount ∧
      (withdrawCash (1 / 2) 1 false 100 ⟨10, 20, 50, 100⟩).outcome ≠
        WdOutcome.notMultiple100) →
      0 ≤ ctrunc (1 / 2 : ℚ) ∧ ctrunc (1 / 2 : ℚ) % 100 = 0) :=
  withdrawCash_invalid_iff (1 / 2) 1 false 100 ⟨10, 20, 50, 100⟩

/-- C8: after three cumulative PIN mismatches since the last success, the lock
    flag is set; while it is set every further attempt is rejected with
    AccountLocked and changes nothing, regardless of PIN correctness (in
    particular a fourth attempt with the correct PIN); the administrative
    unlock clears the flag, resets the failure counter, and the correct PIN
    then succeeds again. -/
theorem login_lockout (acc : Acct) (p1 p2 p3 : Int)
    (hl : acc.locked = 0) (ha : acc.loginAttempts = 0)
    (h1 : p1 ≠ acc.pin) (h2 : p2 ≠ acc.pin) (h3 : p3 ≠ acc.pin) :
    ((loginStep (loginStep (loginStep acc p1).1 p2).1 p3).1.locked = 1) ∧
    (∀ q : Int,
      loginStep (loginStep (loginStep (loginStep acc p1).1 p2).1 p3).1 q =
        ((loginStep (loginStep (loginStep acc p1).1 p2).1 p3).1,
          LoginOutcome.accountLocked)) ∧
    ((adminUnlock (loginStep (loginStep (loginStep acc p1).1 p2).1 p3).1).locked = 0) ∧
    ((adminUnlock (loginStep (loginStep (loginStep acc p1).1 p2).1 p3).1).loginAttempts = 0) ∧
    ((loginStep (adminUnlock (loginStep (loginStep (loginStep acc p1).1 p2).1 p3).1)
        acc.pin).2 = LoginOutcome.success) := by
  obtain ⟨pin, attempts, locked⟩ := acc
  simp only at hl ha h1 h2 h3
  subst hl
  subst ha
  have e1 : loginStep ⟨pin, 0, 0⟩ p1 = (⟨pin, 1, 0⟩, LoginOutcome.wrongPin) := by
    unfold loginStep
    rw [if_neg (by simp : ¬ (Acct.mk pin 0 0).locked ≠ 0), if_neg h1,
      if_pos (by norm_num : 3 - ((Acct.mk pin 0 0).loginAttempts + 1) > 0)]
    norm_num
  have e2 : loginStep ⟨pin, 1, 0⟩ p2 = (⟨pin, 2, 0⟩, LoginOutcome.wrongPin) := by
    unfold loginStep
    rw [if_neg (by simp : ¬ (Acct.mk pin 1 0).locked ≠ 0), if_neg h2,
      if_pos (by norm_num : 3 - ((Acct.mk pin 1 0).loginAttempts + 1) > 0)]
    norm_num
  have e3 : loginStep ⟨pin, 2, 0⟩ p3 = (⟨pin, 3, 1⟩, LoginOutcome.wrongPin) := by
    unfold loginStep
    rw [if_neg (by simp : ¬ (Acct.mk pin 2 0).locked ≠ 0), if_neg h3,
      if_neg (by norm_num : ¬ 3 - ((Acct.mk pin 2 0).loginAttempts + 1) > 0)]
    norm_num
  have hs3 : (loginStep (loginStep (loginStep ⟨pin, 0, 0⟩ p1).1 p2).1 p3).1 =
      (⟨pin, 3, 1⟩ : Acct) := by
    simp only [e1, e2, e3]
  rw [hs3]
  refine ⟨rfl, ?_, rfl, rfl, ?_⟩
  · intro q
    simp [loginStep]
  · simp [adminUnlock, loginStep]

/-- Witness for C8: account with PIN 1234, three wrong PINs 1, 2, 3, a fourth
    attempt with the correct PIN rejected, then unlock and a successful
    login. -/
theorem login_lockout_witness :
    ((loginStep (loginStep (loginStep ⟨1234, 0, 0⟩ 1).1 2).1 3).1.locked = 1) ∧
    (loginStep (loginStep (loginStep (loginStep ⟨1234, 0, 0⟩ 1).1 2).1 3).1 1234 =
      ((loginStep (loginStep (loginStep ⟨1234, 0, 0⟩ 1).1 2).1 3).1,
        LoginOutcome.accountLocked)) ∧
    ((loginStep (adminUnlock (loginStep (loginStep (loginStep ⟨1234, 0, 0⟩ 1).1 2).1 3).1)
        (Acct.mk 1234 0 0).pin).2 = LoginOutcome.success) := by
  have h := login_lockout ⟨1234, 0, 0⟩ 1 2 3 rfl rfl (by decide) (by decide) (by decide)
  exact ⟨h.1, h.2.1 1234, h.2.2.2.2⟩
